import Mathlib

/-!
Verification of the Seat Inventory & Booking Transaction Engine of the
flight-booking backend (`src/backend/flight_api.py`).

The Python source is shallowly embedded: SQLite rows become Lean structures,
the database becomes a record of lists, money and timestamps become rationals
(timestamps are seconds; `datetime.now()` becomes an explicit `now` argument),
and every fallible operation returns `Except ApiError`.  A transaction that
rolls back on failure is modelled by a function returning the pair of the
result and the post-state, where the error branch returns the original state.
-/

namespace FlightBooking

/-- Rounding to 2 decimal places as used by Python's `round(x, 2)`, modelled
on rationals as rounding the number of cents to the nearest integer. -/
def round2 (x : ℚ) : ℚ := (round (x * 100) : ℚ) / 100

/-- Hours until departure: `(departure_time - datetime.now()).total_seconds() / 3600`. -/
def hoursUntil (departure_time now : ℚ) : ℚ := (departure_time - now) / 3600

/-- Embedding of `calculate_dynamic_price` (flight_api.py lines 417-450).
`departure_time` and `now` are timestamps in seconds. -/
def calculate_dynamic_price (base_price : ℚ) (seats_remaining : ℤ) (total_seats : ℤ)
    (demand_factor : ℚ) (departure_time : ℚ) (now : ℚ) : ℚ :=
  let ts : ℤ := if total_seats ≤ 0 then 1 else total_seats
  let remaining_percentage : ℚ := (seats_remaining : ℚ) / (ts : ℚ)
  let seat_factor : ℚ :=
    if remaining_percentage ≤ 5/100 then 60/100
    else if remaining_percentage ≤ 10/100 then 40/100
    else if remaining_percentage ≤ 20/100 then 20/100
    else if remaining_percentage ≤ 50/100 then 10/100
    else 0
  let hours_until_departure := hoursUntil departure_time now
  let time_factor : ℚ :=
    if hours_until_departure < 0 then 0
    else if hours_until_departure < 6 then 30/100
    else if hours_until_departure < 24 then 20/100
    else if hours_until_departure < 72 then 10/100
    else 5/100
  round2 (base_price * (1 + seat_factor + time_factor) * demand_factor)

/-- Embedding of `calculate_refund` (flight_api.py lines 452-476): refund
amount and the policy label for the tier. -/
def calculate_refund (price_paid : ℚ) (departure_time now : ℚ) : ℚ × String :=
  let hours_until := hoursUntil departure_time now
  let tier : ℚ × String :=
    if hours_until > 72 then (90/100, "More than 72 hours before departure")
    else if hours_until > 48 then (80/100, "48-72 hours before departure")
    else if hours_until > 24 then (60/100, "24-48 hours before departure")
    else if hours_until > 6 then (40/100, "6-24 hours before departure")
    else if hours_until > 0 then (20/100, "Less than 6 hours before departure")
    else (0, "Flight already departed - no refund")
  (round2 (price_paid * tier.1), tier.2)

/-- Flight lifecycle status (`flight.status` CHECK constraint). -/
inductive FlightStatus where
  | SCHEDULED | BOARDING | DEPARTED | ARRIVED | CANCELLED
  deriving DecidableEq

/-- Booking lifecycle status (`booking.status` CHECK constraint). -/
inductive BookingStatus where
  | PENDING | CONFIRMED | CANCELLED | REFUNDED
  deriving DecidableEq

/-- Payment status (`payment.payment_status` CHECK constraint). -/
inductive PaymentStatus where
  | SUCCESS | FAILED | PENDING | REFUNDED
  deriving DecidableEq

/-- A row of the `flight` table (the columns the booking core reads). -/
structure Flight where
  id : Nat
  base_price : ℚ
  total_seats : ℤ
  seats_remaining : ℤ
  demand_factor : ℚ
  departure_time : ℚ
  status : FlightStatus
  deriving DecidableEq

/-- A row of the `booking` table. -/
structure Booking where
  id : Nat
  user_id : Nat
  flight_id : Nat
  pnr : String
  price_paid : ℚ
  booking_date : ℚ
  status : BookingStatus
  payment_reference : Option String
  cancellation_date : Option ℚ
  refund_amount : Option ℚ
  deriving DecidableEq

/-- A row of the `passenger` table (a seat assignment).  The schema puts a
UNIQUE index on `(flight_id, seat_number)` over all rows. -/
structure PassengerRow where
  booking_id : Nat
  flight_id : Nat
  seat_number : String
  deriving DecidableEq

/-- A row of the `payment` table. -/
structure PaymentRow where
  booking_id : Nat
  payment_reference : String
  payment_method : String
  amount_paid : ℚ
  payment_status : PaymentStatus
  deriving DecidableEq

/-- A row of the `flight_price_history` table. -/
structure HistoryEntry where
  flight_id : Nat
  recorded_price : ℚ
  demand_factor : ℚ
  seats_remaining : ℤ
  deriving DecidableEq

/-- A row of the `cancelled_booking` archive table. -/
structure ArchiveRow where
  pnr : String
  user_id : Nat
  flight_id : Nat
  price_paid : ℚ
  refund_amount : ℚ
  cancellation_reason : String
  deriving DecidableEq

/-- The database state: one list per table the booking core touches. -/
structure DB where
  flights : List Flight
  bookings : List Booking
  passengers : List PassengerRow
  payments : List PaymentRow
  history : List HistoryEntry
  archives : List ArchiveRow
  deriving DecidableEq

/-- The error taxonomy: HTTP 404 is `NotFoundError`, the 400s raised for a
wrong lifecycle state are `InvalidStateError`, the 400s raised for missing
seats are `CapacityError`, 409 is `ConflictError`, 403 is `ForbiddenError`
and 402 is `PaymentDeclinedError`. -/
inductive ApiError where
  | NotFoundError | InvalidStateError | CapacityError
  | ConflictError | ForbiddenError | PaymentDeclinedError
  deriving DecidableEq

/-- First row of a table satisfying a decidable predicate (the semantics of
a `SELECT ... WHERE ...` returning a single row via `fetchone`). -/
def findFirst {A : Type} (p : A → Prop) [DecidablePred p] : List A → Option A
  | [] => none
  | a :: l => if p a then some a else findFirst p l

/-- The rows of a table satisfying a decidable predicate
(`SELECT ... WHERE ...` via `fetchall`). -/
def filterRows {A : Type} (p : A → Prop) [DecidablePred p] : List A → List A
  | [] => []
  | a :: l => if p a then a :: filterRows p l else filterRows p l

/-- Row count of a `SELECT COUNT` with a WHERE clause. -/
def countRows {A : Type} (p : A → Prop) [DecidablePred p] : List A → Nat
  | [] => 0
  | a :: l => if p a then 1 + countRows p l else countRows p l

/-- Lookup of `SELECT ... FROM flight WHERE id = ?`. -/
def findFlight (db : DB) (flight_id : Nat) : Option Flight :=
  findFirst (fun f => f.id = flight_id) db.flights

/-- Returns `true` exactly on the `.ok` branch. -/
def exceptOk {ε α : Type} : Except ε α → Bool
  | .ok _ => true
  | .error _ => false

/-- The demand-factor ladder recomputed inside `update_flight_inventory`
(flight_api.py lines 495-504). -/
def demandTier (remaining_pct : ℚ) : ℚ :=
  if remaining_pct ≤ 5/100 then 16/10
  else if remaining_pct ≤ 10/100 then 14/10
  else if remaining_pct ≤ 20/100 then 12/10
  else 1

/-- The `new_remaining` value computed by `update_flight_inventory`: the proposed
count `seats_remaining + seats_change`, clamped at `total_seats` from above
(flight_api.py lines 488-493; the negative case is rejected before this). -/
def clampedRemaining (f : Flight) (seats_change : ℤ) : ℤ :=
  if f.seats_remaining + seats_change > f.total_seats then f.total_seats
  else f.seats_remaining + seats_change

/-- The flight row as written back by `update_flight_inventory`: clamped
seat count and recomputed demand factor. -/
def adjustedFlight (f : Flight) (seats_change : ℤ) : Flight :=
  {f with seats_remaining := clampedRemaining f seats_change,
          demand_factor :=
            demandTier ((clampedRemaining f seats_change : ℚ) / (f.total_seats : ℚ))}

/-- The price-history row inserted by `update_flight_inventory` (lines
515-527): the dynamic price recomputed at the new state. -/
def historyEntryFor (f : Flight) (seats_change : ℤ) (now : ℚ) : HistoryEntry :=
  { flight_id := f.id,
    recorded_price := calculate_dynamic_price f.base_price
      (clampedRemaining f seats_change) f.total_seats
      (demandTier ((clampedRemaining f seats_change : ℚ) / (f.total_seats : ℚ)))
      f.departure_time now,
    demand_factor := demandTier ((clampedRemaining f seats_change : ℚ) / (f.total_seats : ℚ)),
    seats_remaining := clampedRemaining f seats_change }

/-- Embedding of `update_flight_inventory` (flight_api.py lines 478-527):
adds `seats_change` to `seats_remaining` (negative change reserves seats),
fails when the result would be negative, clamps at `total_seats`, recomputes
the demand factor and appends one price-history row.  Runs inside the
caller's transaction, so a failure simply returns the error. -/
def update_flight_inventory (db : DB) (now : ℚ) (flight_id : Nat) (seats_change : ℤ) :
    Except ApiError DB :=
  match findFlight db flight_id with
  | none => .error .NotFoundError
  | some flight =>
    if flight.seats_remaining + seats_change < 0 then .error .CapacityError
    else
      .ok {db with
        flights := db.flights.map
          (fun g => if g.id = flight_id then adjustedFlight flight seats_change else g),
        history := db.history ++ [historyEntryFor flight seats_change now]}

/-- One passenger of a booking request (the fields the core uses). -/
structure PassengerIn where
  full_name : String
  seat_number : String
  deriving DecidableEq

/-- A checkout request (`BookingRequest` model). -/
structure BookingRequest where
  flight_id : Nat
  user_id : Nat
  passengers : List PassengerIn
  payment_method : String
  deriving DecidableEq

/-- The response body of a successful checkout. -/
structure CheckoutResult where
  pnr : String
  booking_id : Nat
  payment_reference : String
  price_paid : ℚ
  deriving DecidableEq

/-- Whether a `(flight_id, seat_number)` pair is present in the `passenger`
table: the UNIQUE index `idx_unique_seat_per_flight` rejects an insert
exactly when this holds.  Note the index ranges over ALL passenger rows,
whatever the status of their booking. -/
def seatTaken (rows : List PassengerRow) (flight_id : Nat) (seat : String) : Prop :=
  ∃ r ∈ rows, r.flight_id = flight_id ∧ r.seat_number = seat

instance (rows : List PassengerRow) (flight_id : Nat) (seat : String) :
    Decidable (seatTaken rows flight_id seat) :=
  List.decidableBEx _ rows

/-- The passenger-insertion loop of `checkout` (flight_api.py lines
1075-1088): inserts the rows one by one; an `sqlite3.IntegrityError` from
the unique seat index becomes HTTP 409, i.e. `ConflictError`. -/
def insertPassengers (db : DB) (booking_id flight_id : Nat) :
    List PassengerIn → Except ApiError DB
  | [] => .ok db
  | p :: ps =>
    if seatTaken db.passengers flight_id p.seat_number then .error .ConflictError
    else insertPassengers
      {db with passengers := db.passengers ++ [⟨booking_id, flight_id, p.seat_number⟩]}
      booking_id flight_id ps

/-- The validation phase of `checkout` (flight_api.py lines 1024-1047):
404 when the flight is absent, 400 (`InvalidStateError`) when the status is
not SCHEDULED or `departure_dt < datetime.now()`, 400 (`CapacityError`)
when `seats_remaining < len(passengers)`; otherwise the flight row. -/
def checkoutValidate (db : DB) (now : ℚ) (flight_id : Nat) (num_passengers : ℕ) :
    Except ApiError Flight :=
  match findFlight db flight_id with
  | none => .error .NotFoundError
  | some flight =>
    if flight.status ≠ .SCHEDULED then .error .InvalidStateError
    else if flight.departure_time < now then .error .InvalidStateError
    else if flight.seats_remaining < (num_passengers : ℤ) then .error .CapacityError
    else .ok flight

/-- Set the status (and payment reference) of one booking row. -/
def confirmBooking (bookings : List Booking) (booking_id : Nat) (payment_reference : String) :
    List Booking :=
  bookings.map (fun b =>
    if b.id = booking_id then
      {b with status := .CONFIRMED, payment_reference := some payment_reference}
    else b)

/-- The PENDING booking row inserted by `checkout` (flight_api.py lines
1062-1070). -/
def pendingBooking (req : BookingRequest) (booking_id : Nat) (pnr : String)
    (now total_price : ℚ) : Booking :=
  { id := booking_id, user_id := req.user_id, flight_id := req.flight_id,
    pnr := pnr, price_paid := total_price, booking_date := now,
    status := .PENDING, payment_reference := none,
    cancellation_date := none, refund_amount := none }

/-- Steps 1-6 of `checkout` (flight_api.py lines 1024-1091): validate, price
from the flight state as read (pre-reservation), insert the PENDING booking,
insert the passengers and decrement the inventory.  Returns the working
database together with the total price. -/
def prepareCheckout (db : DB) (now : ℚ) (req : BookingRequest) (booking_id : Nat)
    (pnr : String) : Except ApiError (DB × ℚ) :=
  match checkoutValidate db now req.flight_id req.passengers.length with
  | .error e => .error e
  | .ok flight =>
    let price_per_passenger := calculate_dynamic_price flight.base_price
      flight.seats_remaining flight.total_seats flight.demand_factor
      flight.departure_time now
    let total_price := round2 (price_per_passenger * (req.passengers.length : ℚ))
    let db1 : DB := {db with
      bookings := db.bookings ++ [pendingBooking req booking_id pnr now total_price]}
    match insertPassengers db1 booking_id req.flight_id req.passengers with
    | .error e => .error e
    | .ok db2 =>
      match update_flight_inventory db2 now req.flight_id (-(req.passengers.length : ℤ)) with
      | .error e => .error e
      | .ok db3 => .ok (db3, total_price)

/-- Embedding of `checkout` (flight_api.py lines 1012-1137).  The SQLite
transaction (`BEGIN IMMEDIATE` ... `commit`/`rollback`) is modelled by
returning the original database alongside any error.  Nondeterministic
collaborators are explicit arguments: the generated `booking_id`,
`pnr` and `payment_reference`, and `payment_success` is the outcome of the
payment gateway (`random.random() > 0.02` in the source, line 1095).  After
steps 1-6 the payment row is inserted with status SUCCESS or FAILED; a
declined payment rolls the whole attempt back and surfaces
`PaymentDeclinedError` (HTTP 402); a successful one flips the booking to
CONFIRMED and commits. -/
def checkout (db : DB) (now : ℚ) (req : BookingRequest) (booking_id : Nat)
    (pnr payment_reference : String) (payment_success : Bool) :
    Except ApiError CheckoutResult × DB :=
  match prepareCheckout db now req booking_id pnr with
  | .error e => (.error e, db)
  | .ok prep =>
    let db4 : DB := {prep.1 with payments := prep.1.payments ++
      [⟨booking_id, payment_reference, req.payment_method, prep.2,
        if payment_success then .SUCCESS else .FAILED⟩]}
    if payment_success then
      (.ok ⟨pnr, booking_id, payment_reference, prep.2⟩,
       {db4 with bookings := confirmBooking db4.bookings booking_id payment_reference})
    else
      (.error .PaymentDeclinedError, db)

/-- The refund receipt returned by a successful cancellation. -/
structure RefundReceipt where
  price_paid : ℚ
  refund_amount : ℚ
  policy : String
  deriving DecidableEq

/-- Embedding of `cancel_booking` (flight_api.py lines 1241-1324).  The
SELECT joins `booking` with `flight`, so a missing flight row also surfaces
as 404.  The passenger rows of the booking are NOT touched by the source:
only counted to size the inventory release. -/
def cancel_booking (db : DB) (now : ℚ) (pnr : String) (actor_id : Nat)
    (actor_is_admin : Bool) (reason : String) : Except ApiError RefundReceipt × DB :=
  match findFirst (fun b => b.pnr = pnr) db.bookings with
  | none => (.error .NotFoundError, db)
  | some booking =>
    match findFlight db booking.flight_id with
    | none => (.error .NotFoundError, db)
    | some flight =>
      if ¬ actor_is_admin ∧ booking.user_id ≠ actor_id then (.error .ForbiddenError, db)
      else if booking.status ≠ .CONFIRMED then (.error .InvalidStateError, db)
      else
        let refund := calculate_refund booking.price_paid flight.departure_time now
        let passenger_count := countRows (fun p => p.booking_id = booking.id) db.passengers
        let db1 : DB := {db with archives := db.archives ++
          [⟨pnr, booking.user_id, booking.flight_id, booking.price_paid, refund.1, reason⟩]}
        let db2 : DB := {db1 with bookings := db1.bookings.map (fun b =>
          if b.id = booking.id then
            {b with status := .CANCELLED, cancellation_date := some now,
                    refund_amount := some refund.1}
          else b)}
        let db3 : DB := {db2 with payments := db2.payments.map (fun p =>
          if p.booking_id = booking.id then {p with payment_status := .REFUNDED} else p)}
        match update_flight_inventory db3 now booking.flight_id (passenger_count : ℤ) with
        | .error e => (.error e, db)
        | .ok db4 => (.ok ⟨booking.price_paid, refund.1, refund.2⟩, db4)

/-- The 15-minute grace window of the reaper, in seconds. -/
def graceWindow : ℚ := 15 * 60

/-- The reaper's SELECT (flight_api.py lines 637-640): bookings still
PENDING whose `booking_date` is older than the cutoff. -/
def expiredBookings (db : DB) (now : ℚ) : List Booking :=
  filterRows (fun b => b.status = .PENDING ∧ b.booking_date < now - graceWindow) db.bookings

/-- One iteration of the reaper's loop (flight_api.py lines 643-652):
restore the booked seats to the flight, then mark the booking CANCELLED.
Any error (e.g. the flight row is missing) propagates out of the loop. -/
def sweepOne (db : DB) (now : ℚ) (b : Booking) : Except ApiError DB :=
  let count := countRows (fun p => p.booking_id = b.id) db.passengers
  let restored : Except ApiError DB :=
    if count > 0 then update_flight_inventory db now b.flight_id (count : ℤ) else .ok db
  match restored with
  | .error e => .error e
  | .ok db1 => .ok {db1 with bookings := db1.bookings.map (fun x =>
      if x.id = b.id then {x with status := .CANCELLED} else x)}

/-- The reaper's loop over the list of expired bookings fetched up front. -/
def sweepAll (db : DB) (now : ℚ) : List Booking → Except ApiError DB
  | [] => .ok db
  | b :: rest =>
    match sweepOne db now b with
    | .error e => .error e
    | .ok db1 => sweepAll db1 now rest

/-- Embedding of `cleanup_expired_bookings` (flight_api.py lines 630-658):
the whole sweep runs in one connection with a single `commit` at the end and
a single `try`/`except` around everything, so any exception rolls the whole
sweep back and is merely logged. -/
def cleanup_expired_bookings (db : DB) (now : ℚ) : DB :=
  match sweepAll db now (expiredBookings db now) with
  | .ok db1 => db1
  | .error _ => db

/-! ## Spec-side pricing and refund ladders

The following definitions transcribe the tier tables as the specification
words them, to be compared with the functions embedded from the source. -/

/-- The spec's seat-scarcity surcharge table: tiers on
`seats_remaining/total_seats`. -/
def seatSurchargeSpec (remaining_pct : ℚ) : ℚ :=
  if remaining_pct ≤ 5/100 then 60/100
  else if remaining_pct ≤ 10/100 then 40/100
  else if remaining_pct ≤ 20/100 then 20/100
  else if remaining_pct ≤ 50/100 then 10/100
  else 0

/-- The spec's time-to-departure surcharge table: tiers on hours remaining. -/
def timeSurchargeSpec (hours : ℚ) : ℚ :=
  if hours < 0 then 0
  else if hours < 6 then 30/100
  else if hours < 24 then 20/100
  else if hours < 72 then 10/100
  else 5/100

/-- The spec's price formula:
`base * (1 + seat_surcharge + time_surcharge) * demand_factor` rounded to
2 decimals. -/
def priceSpec (base_price : ℚ) (seats_remaining total_seats : ℤ)
    (demand_factor departure_time now : ℚ) : ℚ :=
  round2 (base_price *
    (1 + seatSurchargeSpec ((seats_remaining : ℚ) / (total_seats : ℚ))
       + timeSurchargeSpec (hoursUntil departure_time now)) * demand_factor)

/-- The spec's refund percentage table on hours until departure. -/
def refundPct (hours : ℚ) : ℚ :=
  if hours > 72 then 90/100
  else if hours > 48 then 80/100
  else if hours > 24 then 60/100
  else if hours > 6 then 40/100
  else if hours > 0 then 20/100
  else 0

/-- The policy label attached to each refund tier. -/
def refundLabel (hours : ℚ) : String :=
  if hours > 72 then "More than 72 hours before departure"
  else if hours > 48 then "48-72 hours before departure"
  else if hours > 24 then "24-48 hours before departure"
  else if hours > 6 then "6-24 hours before departure"
  else if hours > 0 then "Less than 6 hours before departure"
  else "Flight already departed - no refund"

/-! ## Helper lemmas -/

lemma round2_mono {x y : ℚ} (h : x ≤ y) : round2 x ≤ round2 y := by
  unfold round2
  have hr : round (x * 100) ≤ round (y * 100) := by
    rw [round_eq, round_eq]
    exact Int.floor_mono (by linarith)
  have hc : ((round (x * 100) : ℤ) : ℚ) ≤ ((round (y * 100) : ℤ) : ℚ) :=
    Int.cast_le.mpr hr
  linarith

lemma seatSurchargeSpec_antitone {p q : ℚ} (h : p ≤ q) :
    seatSurchargeSpec q ≤ seatSurchargeSpec p := by
  unfold seatSurchargeSpec
  split_ifs <;> linarith

lemma seatSurchargeSpec_nonneg (p : ℚ) : 0 ≤ seatSurchargeSpec p := by
  unfold seatSurchargeSpec
  split_ifs <;> norm_num

lemma timeSurchargeSpec_nonneg (h : ℚ) : 0 ≤ timeSurchargeSpec h := by
  unfold timeSurchargeSpec
  split_ifs <;> norm_num

/-- For a positive seat count the source's pricing function is exactly the
spec's formula. -/
lemma price_eq_priceSpec (base_price : ℚ) (seats_remaining total_seats : ℤ)
    (demand_factor departure_time now : ℚ) (hts : 0 < total_seats) :
    calculate_dynamic_price base_price seats_remaining total_seats demand_factor
      departure_time now
      = priceSpec base_price seats_remaining total_seats demand_factor
          departure_time now := by
  unfold calculate_dynamic_price priceSpec seatSurchargeSpec timeSurchargeSpec
  rw [if_neg (not_le.mpr hts)]

lemma refund_eq_refundSpec (price_paid departure_time now : ℚ) :
    calculate_refund price_paid departure_time now =
      (round2 (price_paid * refundPct (hoursUntil departure_time now)),
       refundLabel (hoursUntil departure_time now)) := by
  unfold calculate_refund refundPct refundLabel
  dsimp only
  split_ifs <;> rfl

/-! ## Claims C3, C5 (refund ladder part), C9, C10 -/

/-- C3: for `total_seats > 0` the pricing function returns
`base * (1 + seat_surcharge + time_surcharge) * demand_factor` rounded to 2
decimals, with the seat surcharge tiered on `seats_remaining/total_seats`
(≤5% → +60%, ≤10% → +40%, ≤20% → +20%, ≤50% → +10%, else +0%) and the time
surcharge tiered on hours until departure (negative → +0%, <6h → +30%,
<24h → +20%, <72h → +10%, else +5%); in particular base 100, 2 of 2 seats
remaining, demand factor 1 and departure in 80 hours yields 105.00. -/
theorem c3_pricing_formula :
    (∀ (base_price : ℚ) (seats_remaining total_seats : ℤ)
        (demand_factor departure_time now : ℚ), 0 < total_seats →
        calculate_dynamic_price base_price seats_remaining total_seats
          demand_factor departure_time now
          = priceSpec base_price seats_remaining total_seats demand_factor
              departure_time now) ∧
    calculate_dynamic_price 100 2 2 1 (80 * 3600) 0 = 105 := by
  constructor
  · intro b s ts d dep now hts
    exact price_eq_priceSpec b s ts d dep now hts
  · norm_num [calculate_dynamic_price, round2, hoursUntil, round_eq]

/-- Witness for C3 at the spec's own example. -/
theorem c3_pricing_formula_witness :
    calculate_dynamic_price 100 2 2 1 (80 * 3600) 0 =
      priceSpec 100 2 2 1 (80 * 3600) 0 :=
  c3_pricing_formula.1 100 2 2 1 (80 * 3600) 0 (by norm_num)

/-- C10: when called with `total_seats ≤ 0` the pricing function substitutes
`total_seats = 1` before dividing, so it never divides by zero and (being a
total function) always returns a value. -/
theorem c10_total_seats_guard (base_price : ℚ) (seats_remaining : ℤ)
    (total_seats : ℤ) (demand_factor departure_time now : ℚ)
    (h : total_seats ≤ 0) :
    calculate_dynamic_price base_price seats_remaining total_seats
        demand_factor departure_time now
      = calculate_dynamic_price base_price seats_remaining 1 demand_factor
          departure_time now := by
  unfold calculate_dynamic_price
  rw [if_pos h, if_neg (by norm_num : ¬ (1 : ℤ) ≤ 0)]

/-- Witness for C10 at `total_seats = 0`. -/
theorem c10_total_seats_guard_witness :
    calculate_dynamic_price 100 3 0 1 0 0 =
      calculate_dynamic_price 100 3 1 1 0 0 :=
  c10_total_seats_guard 100 3 0 1 0 0 (by norm_num)

/-- C9 counterexample: with demand_factor = -1 (the claim puts no bound on
it), base_price 100 > 0, total_seats 100 > 0, 0 ≤ s2 = 1 ≤ s1 = 100, the
price at the scarcer state is strictly smaller, refuting monotonicity as
stated. -/
theorem c9_counterexample :
    (0 : ℚ) < 100 ∧ (0 : ℤ) < 100 ∧ (0 : ℤ) ≤ 1 ∧ (1 : ℤ) ≤ 100 ∧
    calculate_dynamic_price 100 1 100 (-1) 360000 0 <
      calculate_dynamic_price 100 100 100 (-1) 360000 0 := by
  norm_num [calculate_dynamic_price, round2, hoursUntil, round_eq]

/-- C9 amended: for base_price > 0, total_seats > 0 and **nonnegative**
demand_factor, the price is non-decreasing as seats_remaining decreases:
for 0 ≤ s2 ≤ s1 ≤ total_seats the price at s2 is at least the price at
s1.  (The schema bounds demand_factor to [0.5, 2.0], so every stored
demand factor satisfies the added hypothesis.) -/
theorem c9_price_monotone (base_price : ℚ) (total_seats : ℤ)
    (demand_factor departure_time now : ℚ) (s1 s2 : ℤ)
    (hbase : 0 < base_price) (hts : 0 < total_seats) (hd : 0 ≤ demand_factor)
    (h0 : 0 ≤ s2) (h21 : s2 ≤ s1) (h1 : s1 ≤ total_seats) :
    calculate_dynamic_price base_price s1 total_seats demand_factor
        departure_time now
      ≤ calculate_dynamic_price base_price s2 total_seats demand_factor
          departure_time now := by
  rw [price_eq_priceSpec _ _ _ _ _ _ hts, price_eq_priceSpec _ _ _ _ _ _ hts]
  unfold priceSpec
  apply round2_mono
  have htsq : (0 : ℚ) < (total_seats : ℚ) := by exact_mod_cast hts
  have hpct : (s2 : ℚ) / (total_seats : ℚ) ≤ (s1 : ℚ) / (total_seats : ℚ) := by
    have h21q : (s2 : ℚ) ≤ (s1 : ℚ) := by exact_mod_cast h21
    exact (div_le_div_iff_of_pos_right htsq).mpr h21q
  have hsf := seatSurchargeSpec_antitone hpct
  have htf := timeSurchargeSpec_nonneg (hoursUntil departure_time now)
  have hsf2 := seatSurchargeSpec_nonneg ((s1 : ℚ) / (total_seats : ℚ))
  have hfac : 1 + seatSurchargeSpec ((s1 : ℚ) / (total_seats : ℚ))
        + timeSurchargeSpec (hoursUntil departure_time now)
      ≤ 1 + seatSurchargeSpec ((s2 : ℚ) / (total_seats : ℚ))
        + timeSurchargeSpec (hoursUntil departure_time now) := by linarith
  have hbf : base_price *
        (1 + seatSurchargeSpec ((s1 : ℚ) / (total_seats : ℚ))
           + timeSurchargeSpec (hoursUntil departure_time now))
      ≤ base_price *
        (1 + seatSurchargeSpec ((s2 : ℚ) / (total_seats : ℚ))
           + timeSurchargeSpec (hoursUntil departure_time now)) :=
    mul_le_mul_of_nonneg_left hfac hbase.le
  exact mul_le_mul_of_nonneg_right hbf hd

/-- Witness for C9 amended at concrete inputs. -/
theorem c9_price_monotone_witness :
    calculate_dynamic_price 100 10 100 1 0 0 ≤
      calculate_dynamic_price 100 5 100 1 0 0 :=
  c9_price_monotone 100 100 1 0 0 10 5 (by norm_num) (by norm_num)
    (by norm_num) (by norm_num) (by norm_num) (by norm_num)

/-! ## Claim C2: inventory operations -/

/-- An InventoryStore operation: `reserve` is `update_flight_inventory` with
a negative change (as called from checkout), `release` with a positive one
(as called from cancellation and the reaper). -/
inductive InvOp where
  | reserve (flight_id : Nat) (n : ℕ)
  | release (flight_id : Nat) (n : ℕ)

/-- Run one operation inside its own transaction: an error rolls back,
leaving the database unchanged. -/
def applyInvOp (db : DB) (now : ℚ) : InvOp → DB
  | .reserve flight_id n =>
    match update_flight_inventory db now flight_id (-(n : ℤ)) with
    | .ok db2 => db2
    | .error _ => db
  | .release flight_id n =>
    match update_flight_inventory db now flight_id (n : ℤ) with
    | .ok db2 => db2
    | .error _ => db

/-- Run a finite sequence of inventory operations. -/
def applyInvOps (db : DB) (now : ℚ) : List InvOp → DB
  | [] => db
  | op :: ops => applyInvOps (applyInvOp db now op) now ops

/-- The flight-table invariant: `0 ≤ seats_remaining ≤ total_seats`
(the schema CHECK constraint). -/
def FlightInv (f : Flight) : Prop :=
  0 ≤ f.seats_remaining ∧ f.seats_remaining ≤ f.total_seats

/-- The invariant over the whole flight table. -/
def DBInv (db : DB) : Prop := ∀ f ∈ db.flights, FlightInv f

lemma findFirst_eq_some {A : Type} {p : A → Prop} [DecidablePred p]
    {l : List A} {a : A} (h : findFirst p l = some a) : a ∈ l ∧ p a := by
  induction l with
  | nil => simp [findFirst] at h
  | cons x l ih =>
    by_cases hx : p x
    · simp only [findFirst, if_pos hx] at h
      obtain rfl : x = a := Option.some.inj h
      exact ⟨List.mem_cons_self x l, hx⟩
    · simp only [findFirst, if_neg hx] at h
      rcases ih h with ⟨hm, hp⟩
      exact ⟨List.mem_cons_of_mem x hm, hp⟩

lemma findFlight_after_update {flight_id : Nat} {g : Flight} (hg : g.id = flight_id) :
    ∀ {l : List Flight} {f : Flight},
      findFirst (fun x => x.id = flight_id) l = some f →
      findFirst (fun x => x.id = flight_id)
        (l.map (fun x => if x.id = flight_id then g else x)) = some g := by
  intro l
  induction l with
  | nil => intro f h; simp [findFirst] at h
  | cons x l ih =>
    intro f h
    by_cases hx : x.id = flight_id
    · simp [findFirst, hx, hg]
    · simp only [findFirst, if_neg hx] at h
      simp only [List.map_cons, if_neg hx, findFirst]
      exact ih h

lemma update_inv_ok {db : DB} {now : ℚ} {flight_id : Nat} {c : ℤ} {f : Flight}
    (hf : findFlight db flight_id = some f) (hok : ¬ f.seats_remaining + c < 0) :
    update_flight_inventory db now flight_id c = .ok
      { flights := db.flights.map
          (fun g => if g.id = flight_id then adjustedFlight f c else g),
        bookings := db.bookings, passengers := db.passengers,
        payments := db.payments,
        history := db.history ++ [historyEntryFor f c now],
        archives := db.archives } := by
  unfold update_flight_inventory
  rw [hf]
  dsimp only
  rw [if_neg hok]

lemma update_inv_capacity {db : DB} {now : ℚ} {flight_id : Nat} {c : ℤ} {f : Flight}
    (hf : findFlight db flight_id = some f) (hlt : f.seats_remaining + c < 0) :
    update_flight_inventory db now flight_id c = .error .CapacityError := by
  unfold update_flight_inventory
  rw [hf]
  dsimp only
  rw [if_pos hlt]

lemma adjustedFlight_inv {f : Flight} {c : ℤ} (hf : FlightInv f)
    (hok : ¬ f.seats_remaining + c < 0) : FlightInv (adjustedFlight f c) := by
  obtain ⟨h0, h1⟩ := hf
  unfold adjustedFlight clampedRemaining FlightInv
  dsimp only
  split_ifs with hcl
  · exact ⟨le_trans h0 h1, le_refl _⟩
  · omega

lemma update_inv_preserves {db db2 : DB} {now : ℚ} {flight_id : Nat} {c : ℤ}
    (hinv : DBInv db) (heq : update_flight_inventory db now flight_id c = .ok db2) :
    DBInv db2 := by
  unfold update_flight_inventory at heq
  cases hf : findFlight db flight_id with
  | none => rw [hf] at heq; exact absurd heq (by simp)
  | some f =>
    rw [hf] at heq
    dsimp only at heq
    split_ifs at heq with hneg
    injection heq with h2
    subst h2
    intro g hg
    simp only [List.mem_map] at hg
    obtain ⟨x, hx, hgx⟩ := hg
    by_cases hid : x.id = flight_id
    · rw [if_pos hid] at hgx
      subst hgx
      exact adjustedFlight_inv (hinv f (findFirst_eq_some hf).1) hneg
    · rw [if_neg hid] at hgx
      subst hgx
      exact hinv x hx

lemma applyInvOp_inv {db : DB} {now : ℚ} (op : InvOp) (hinv : DBInv db) :
    DBInv (applyInvOp db now op) := by
  cases op with
  | reserve flight_id n =>
    simp only [applyInvOp]
    cases h : update_flight_inventory db now flight_id (-(n : ℤ)) with
    | ok db2 => exact update_inv_preserves hinv h
    | error e => exact hinv
  | release flight_id n =>
    simp only [applyInvOp]
    cases h : update_flight_inventory db now flight_id (n : ℤ) with
    | ok db2 => exact update_inv_preserves hinv h
    | error e => exact hinv

lemma applyInvOps_inv {now : ℚ} (ops : List InvOp) :
    ∀ {db : DB}, DBInv db → DBInv (applyInvOps db now ops) := by
  induction ops with
  | nil => intro db h; exact h
  | cons op ops ih =>
    intro db h
    exact ih (applyInvOp_inv op h)

/-- C2: starting from any database satisfying `0 ≤ seats_remaining ≤
total_seats`, the invariant holds after any finite sequence of reserve and
release operations; a reserve of `n > seats_remaining` seats fails with
`CapacityError` and leaves the database unchanged; a reserve of `n ≤
seats_remaining` succeeds, decrements by `n`, retiers the demand factor
(≤5% → 1.6, ≤10% → 1.4, ≤20% → 1.2, else 1.0, via `demandTier`) and appends
exactly one price-history row; a release clamps at `total_seats` and
likewise retiers and appends one row. -/
theorem c2_inventory_invariant (db : DB) (now : ℚ) (hinv : DBInv db) :
    (∀ ops : List InvOp, DBInv (applyInvOps db now ops)) ∧
    (∀ (flight_id : Nat) (n : ℕ) (f : Flight), findFlight db flight_id = some f →
        f.seats_remaining < (n : ℤ) →
        update_flight_inventory db now flight_id (-(n : ℤ)) = .error .CapacityError ∧
        applyInvOp db now (.reserve flight_id n) = db) ∧
    (∀ (flight_id : Nat) (n : ℕ) (f : Flight), findFlight db flight_id = some f →
        (n : ℤ) ≤ f.seats_remaining →
        ∃ db2, update_flight_inventory db now flight_id (-(n : ℤ)) = .ok db2 ∧
          findFlight db2 flight_id = some
            {f with seats_remaining := f.seats_remaining - n,
                    demand_factor := demandTier
                      (((f.seats_remaining - (n : ℤ)) : ℚ) / (f.total_seats : ℚ))} ∧
          db2.history.length = db.history.length + 1) ∧
    (∀ (flight_id : Nat) (n : ℕ) (f : Flight), findFlight db flight_id = some f →
        ∃ db2, update_flight_inventory db now flight_id (n : ℤ) = .ok db2 ∧
          findFlight db2 flight_id = some
            {f with seats_remaining := min (f.seats_remaining + n) f.total_seats,
                    demand_factor := demandTier
                      ((min (f.seats_remaining + (n : ℤ)) f.total_seats : ℚ) /
                        (f.total_seats : ℚ))} ∧
          db2.history.length = db.history.length + 1) := by
  refine ⟨fun ops => applyInvOps_inv ops hinv, ?_, ?_, ?_⟩
  · intro flight_id n f hf hlt
    have hcap : update_flight_inventory db now flight_id (-(n : ℤ)) =
        .error .CapacityError := update_inv_capacity hf (by omega)
    refine ⟨hcap, ?_⟩
    simp only [applyInvOp]
    rw [hcap]
  · intro flight_id n f hf hle
    obtain ⟨hmem, hid⟩ := findFirst_eq_some hf
    obtain ⟨hi0, hi1⟩ := hinv f hmem
    have hok : ¬ f.seats_remaining + (-(n : ℤ)) < 0 := by omega
    have hadj : adjustedFlight f (-(n : ℤ)) =
        {f with seats_remaining := f.seats_remaining - n,
                demand_factor := demandTier
                  (((f.seats_remaining - (n : ℤ)) : ℚ) / (f.total_seats : ℚ))} := by
      have hcl : clampedRemaining f (-(n : ℤ)) = f.seats_remaining - n := by
        unfold clampedRemaining
        split_ifs with h
        · omega
        · omega
      unfold adjustedFlight
      rw [hcl]
      push_cast
      rfl
    refine ⟨_, update_inv_ok hf hok, ?_, ?_⟩
    · have hf2 : findFirst (fun x => x.id = flight_id) db.flights = some f := hf
      have hfind := findFlight_after_update (g := adjustedFlight f (-(n : ℤ))) hid hf2
      unfold findFlight
      dsimp only
      rw [hfind, hadj]
    · simp
  · intro flight_id n f hf
    obtain ⟨hmem, hid⟩ := findFirst_eq_some hf
    obtain ⟨hi0, hi1⟩ := hinv f hmem
    have hok : ¬ f.seats_remaining + (n : ℤ) < 0 := by omega
    have hadj : adjustedFlight f (n : ℤ) =
        {f with seats_remaining := min (f.seats_remaining + n) f.total_seats,
                demand_factor := demandTier
                  ((min (f.seats_remaining + (n : ℤ)) f.total_seats : ℚ) /
                    (f.total_seats : ℚ))} := by
      have hcl : clampedRemaining f (n : ℤ) =
          min (f.seats_remaining + n) f.total_seats := by
        unfold clampedRemaining
        split_ifs with h
        · omega
        · omega
      unfold adjustedFlight
      rw [hcl]
      push_cast
      rfl
    refine ⟨_, update_inv_ok hf hok, ?_, ?_⟩
    · have hf2 : findFirst (fun x => x.id = flight_id) db.flights = some f := hf
      have hfind := findFlight_after_update (g := adjustedFlight f (n : ℤ)) hid hf2
      unfold findFlight
      dsimp only
      rw [hfind, hadj]
    · simp

/-- A one-flight database used to instantiate the inventory claim. -/
def invExampleDB : DB :=
  { flights := [⟨1, 100, 10, 3, 1, 360000, .SCHEDULED⟩],
    bookings := [], passengers := [], payments := [], history := [], archives := [] }

/-- Witness for C2: the example database satisfies the invariant and an
overdrawn reserve fails with `CapacityError` leaving the database intact. -/
theorem c2_inventory_invariant_witness :
    update_flight_inventory invExampleDB 0 1 (-(5 : ℤ)) = .error .CapacityError ∧
    applyInvOp invExampleDB 0 (.reserve 1 5) = invExampleDB :=
  (c2_inventory_invariant invExampleDB 0
      (by intro f hf; simp [invExampleDB] at hf; simp [hf, FlightInv])).2.1
    1 5 ⟨1, 100, 10, 3, 1, 360000, .SCHEDULED⟩
    (by norm_num [findFlight, findFirst, invExampleDB])
    (by norm_num)

/-! ## Claim C6: checkout validation -/

/-- A database with one SCHEDULED flight that departs at time 0, used to
probe the validation boundary. -/
def valExampleDB : DB :=
  { flights := [⟨1, 100, 5, 5, 1, 0, .SCHEDULED⟩],
    bookings := [], passengers := [], payments := [], history := [], archives := [] }

/-- C6 counterexample: the claim says a flight whose `departure_time`
equals the current time is rejected with `InvalidStateError`, but the
source tests `departure_dt < datetime.now()` strictly, so at
`departure_time = now = 0` validation succeeds. -/
theorem c6_counterexample :
    (⟨1, 100, 5, 5, 1, 0, .SCHEDULED⟩ : Flight).departure_time ≤ 0 ∧
    findFlight valExampleDB 1 = some ⟨1, 100, 5, 5, 1, 0, .SCHEDULED⟩ ∧
    checkoutValidate valExampleDB 0 1 1 = .ok ⟨1, 100, 5, 5, 1, 0, .SCHEDULED⟩ := by
  norm_num [checkoutValidate, findFlight, findFirst, valExampleDB]

/-- C6 amended: checkout validation fails with `NotFoundError` when the
flight is absent, with `InvalidStateError` when the status is not SCHEDULED
or the departure time is **strictly** before now (a flight departing
exactly now is accepted), with `CapacityError` when the passenger count
exceeds `seats_remaining`, and passes otherwise. -/
theorem c6_checkout_validation (db : DB) (now : ℚ) (flight_id : Nat) (n : ℕ) :
    (findFlight db flight_id = none →
        checkoutValidate db now flight_id n = .error .NotFoundError) ∧
    (∀ f, findFlight db flight_id = some f → f.status ≠ .SCHEDULED →
        checkoutValidate db now flight_id n = .error .InvalidStateError) ∧
    (∀ f, findFlight db flight_id = some f → f.status = .SCHEDULED →
        f.departure_time < now →
        checkoutValidate db now flight_id n = .error .InvalidStateError) ∧
    (∀ f, findFlight db flight_id = some f → f.status = .SCHEDULED →
        ¬ f.departure_time < now → f.seats_remaining < (n : ℤ) →
        checkoutValidate db now flight_id n = .error .CapacityError) ∧
    (∀ f, findFlight db flight_id = some f → f.status = .SCHEDULED →
        ¬ f.departure_time < now → ¬ f.seats_remaining < (n : ℤ) →
        checkoutValidate db now flight_id n = .ok f) := by
  refine ⟨?_, ?_, ?_, ?_, ?_⟩
  · intro hf
    unfold checkoutValidate
    rw [hf]
  · intro f hf hst
    unfold checkoutValidate
    rw [hf]
    dsimp only
    rw [if_pos hst]
  · intro f hf hst hdep
    unfold checkoutValidate
    rw [hf]
    dsimp only
    rw [if_neg (by simp [hst]), if_pos hdep]
  · intro f hf hst hdep hcap
    unfold checkoutValidate
    rw [hf]
    dsimp only
    rw [if_neg (by simp [hst]), if_neg hdep, if_pos hcap]
  · intro f hf hst hdep hcap
    unfold checkoutValidate
    rw [hf]
    dsimp only
    rw [if_neg (by simp [hst]), if_neg hdep, if_neg hcap]

/-- Witness for C6 amended: a flight strictly in the past is rejected with
`InvalidStateError`. -/
theorem c6_checkout_validation_witness :
    checkoutValidate valExampleDB 1 1 1 = .error .InvalidStateError :=
  (c6_checkout_validation valExampleDB 1 1 1).2.2.1 ⟨1, 100, 5, 5, 1, 0, .SCHEDULED⟩
    (by norm_num [findFlight, findFirst, valExampleDB]) rfl (by norm_num)

/-! ## Claims C1 and C7: the checkout transaction -/

lemma checkoutValidate_ok {db : DB} {now : ℚ} {flight_id : Nat} {n : ℕ} {f : Flight}
    (h : checkoutValidate db now flight_id n = .ok f) :
    findFlight db flight_id = some f := by
  unfold checkoutValidate at h
  cases hf : findFlight db flight_id with
  | none => rw [hf] at h; exact absurd h (by simp)
  | some g =>
    rw [hf] at h
    dsimp only at h
    split_ifs at h
    injection h with h2
    rw [h2]

lemma insertPassengers_bookings {booking_id flight_id : Nat} :
    ∀ {ps : List PassengerIn} {db db2 : DB},
      insertPassengers db booking_id flight_id ps = .ok db2 →
      db2.bookings = db.bookings := by
  intro ps
  induction ps with
  | nil =>
    intro db db2 h
    unfold insertPassengers at h
    injection h with h2
    rw [h2]
  | cons p ps ih =>
    intro db db2 h
    unfold insertPassengers at h
    split_ifs at h
    rw [ih h]

lemma update_inv_bookings {db db2 : DB} {now : ℚ} {flight_id : Nat} {c : ℤ}
    (h : update_flight_inventory db now flight_id c = .ok db2) :
    db2.bookings = db.bookings := by
  unfold update_flight_inventory at h
  cases hf : findFlight db flight_id with
  | none => rw [hf] at h; exact absurd h (by simp)
  | some f =>
    rw [hf] at h
    dsimp only at h
    split_ifs at h
    injection h with h2
    rw [← h2]

lemma prepareCheckout_ok {db : DB} {now : ℚ} {req : BookingRequest}
    {booking_id : Nat} {pnr : String} {prep : DB × ℚ}
    (h : prepareCheckout db now req booking_id pnr = .ok prep) :
    ∃ f, findFlight db req.flight_id = some f ∧
      prep.2 = round2 (calculate_dynamic_price f.base_price f.seats_remaining
        f.total_seats f.demand_factor f.departure_time now *
        (req.passengers.length : ℚ)) ∧
      prep.1.bookings = db.bookings ++
        [pendingBooking req booking_id pnr now prep.2] := by
  unfold prepareCheckout at h
  cases hv : checkoutValidate db now req.flight_id req.passengers.length with
  | error e => rw [hv] at h; exact absurd h (by simp)
  | ok flight =>
    rw [hv] at h
    dsimp only at h
    split at h
    · exact absurd h (by simp)
    · rename_i db2 hi
      split at h
      · exact absurd h (by simp)
      · rename_i db3 hu
        injection h with h2
        subst h2
        refine ⟨flight, checkoutValidate_ok hv, rfl, ?_⟩
        rw [update_inv_bookings hu, insertPassengers_bookings hi]

/-- C1: if a checkout attempt would reach and pass every step before
payment (expressed as: the same attempt with a granting payment
collaborator succeeds), then the attempt with a declining collaborator
fails with `PaymentDeclinedError` and returns the database unchanged: no
CONFIRMED booking, no seat assignment, no payment row and no change to
`seats_remaining`/`demand_factor` survive from the attempt. -/
theorem c1_payment_decline (db : DB) (now : ℚ) (req : BookingRequest)
    (booking_id : Nat) (pnr payment_reference : String)
    (h : exceptOk (checkout db now req booking_id pnr payment_reference true).1 = true) :
    checkout db now req booking_id pnr payment_reference false =
      (.error .PaymentDeclinedError, db) := by
  unfold checkout at h ⊢
  cases hp : prepareCheckout db now req booking_id pnr with
  | error e => rw [hp] at h; simp [exceptOk] at h
  | ok prep => simp

/-- C7: every successful checkout prices each passenger from the flight row
as it stood in the **pre-reservation** database (seats_remaining and
demand_factor before the decrement), and stores
`round2(per-passenger price × passenger count)` both in the response and in
the CONFIRMED booking row it creates. -/
theorem c7_price_pre_decrement (db : DB) (now : ℚ) (req : BookingRequest)
    (booking_id : Nat) (pnr payment_reference : String) (payment_success : Bool)
    (r : CheckoutResult)
    (h : (checkout db now req booking_id pnr payment_reference payment_success).1
        = .ok r) :
    ∃ f, findFlight db req.flight_id = some f ∧
      r.price_paid = round2 (calculate_dynamic_price f.base_price f.seats_remaining
        f.total_seats f.demand_factor f.departure_time now *
        (req.passengers.length : ℚ)) ∧
      ∃ b, b ∈ (checkout db now req booking_id pnr payment_reference
          payment_success).2.bookings ∧
        b.id = booking_id ∧ b.status = .CONFIRMED ∧ b.price_paid = r.price_paid := by
  unfold checkout at h ⊢
  cases hp : prepareCheckout db now req booking_id pnr with
  | error e => rw [hp] at h; simp at h
  | ok prep =>
    rw [hp] at h
    dsimp only at h ⊢
    cases payment_success with
    | false => simp at h
    | true =>
      simp only [reduceIte] at h ⊢
      injection h with h2
      obtain ⟨f, hff, hprice, hbk⟩ := prepareCheckout_ok hp
      refine ⟨f, hff, by rw [← h2]; exact hprice, ?_⟩
      refine ⟨{pendingBooking req booking_id pnr now prep.2 with
        status := .CONFIRMED, payment_reference := some payment_reference},
        ?_, rfl, rfl, by rw [← h2]; rfl⟩
      dsimp only
      rw [hbk]
      unfold confirmBooking
      apply List.mem_map.mpr
      refine ⟨pendingBooking req booking_id pnr now prep.2, ?_, ?_⟩
      · exact List.mem_append_right _ (List.mem_singleton_self _)
      · dsimp only
        exact if_pos rfl

/-- A database with one roomy SCHEDULED future flight, for exercising a
full checkout. -/
def bookExampleDB : DB :=
  { flights := [⟨1, 100, 10, 10, 1, 360000, .SCHEDULED⟩],
    bookings := [], passengers := [], payments := [], history := [], archives := [] }

/-- A one-passenger checkout request against `bookExampleDB`. -/
def bookExampleReq : BookingRequest :=
  { flight_id := 1, user_id := 7, passengers := [⟨"Ann", "3C"⟩],
    payment_method := "CARD" }

/-- Witness for C1: this checkout succeeds when payment is granted, so with
payment declined it fails `PaymentDeclinedError` and returns the database
unchanged. -/
theorem c1_payment_decline_witness :
    checkout bookExampleDB 0 bookExampleReq 5 "PNRW" "PAYW" false =
      (.error .PaymentDeclinedError, bookExampleDB) :=
  c1_payment_decline bookExampleDB 0 bookExampleReq 5 "PNRW" "PAYW"
    (by norm_num [checkout, prepareCheckout, checkoutValidate, findFlight,
      findFirst, bookExampleDB, bookExampleReq, calculate_dynamic_price, round2,
      hoursUntil, round_eq, insertPassengers, seatTaken, pendingBooking,
      update_flight_inventory, adjustedFlight, clampedRemaining, demandTier,
      historyEntryFor, confirmBooking, exceptOk])

/-- Witness for C7 at the same concrete checkout. -/
theorem c7_price_pre_decrement_witness :
    ∃ f, findFlight bookExampleDB bookExampleReq.flight_id = some f ∧
      (⟨"PNRW", 5, "PAYW", 105⟩ : CheckoutResult).price_paid =
        round2 (calculate_dynamic_price f.base_price f.seats_remaining
          f.total_seats f.demand_factor f.departure_time 0 *
          (bookExampleReq.passengers.length : ℚ)) ∧
      ∃ b, b ∈ (checkout bookExampleDB 0 bookExampleReq 5 "PNRW" "PAYW"
          true).2.bookings ∧
        b.id = 5 ∧ b.status = .CONFIRMED ∧
        b.price_paid = (⟨"PNRW", 5, "PAYW", 105⟩ : CheckoutResult).price_paid :=
  c7_price_pre_decrement bookExampleDB 0 bookExampleReq 5 "PNRW" "PAYW" true
    ⟨"PNRW", 5, "PAYW", 105⟩
    (by norm_num [checkout, prepareCheckout, checkoutValidate, findFlight,
      findFirst, bookExampleDB, bookExampleReq, calculate_dynamic_price, round2,
      hoursUntil, round_eq, insertPassengers, seatTaken, pendingBooking,
      update_flight_inventory, adjustedFlight, clampedRemaining, demandTier,
      historyEntryFor, confirmBooking])

/-! ## Claim C5: refund policy -/

/-- C5: a cancellation of a CONFIRMED booking refunds `price_paid` times
the tier percentage for the hours until departure (>72h → 90%, >48h → 80%,
>24h → 60%, >6h → 40%, >0h → 20%, else 0%), rounded to 2 decimals, with the
tier's policy label; and the spec's example: 200 paid, cancelled exactly 50
hours before departure, refunds 160.00 under the 48-72h tier. -/
theorem c5_refund_policy :
    (∀ price_paid departure_time now : ℚ,
        calculate_refund price_paid departure_time now =
          (round2 (price_paid * refundPct (hoursUntil departure_time now)),
           refundLabel (hoursUntil departure_time now))) ∧
    (∀ (db : DB) (now : ℚ) (pnr : String) (actor_id : Nat) (adm : Bool)
        (reason : String) (rcpt : RefundReceipt),
        (cancel_booking db now pnr actor_id adm reason).1 = .ok rcpt →
        ∃ b f, findFirst (fun x => x.pnr = pnr) db.bookings = some b ∧
          findFlight db b.flight_id = some f ∧
          rcpt.refund_amount =
            round2 (b.price_paid * refundPct (hoursUntil f.departure_time now)) ∧
          rcpt.policy = refundLabel (hoursUntil f.departure_time now)) ∧
    calculate_refund 200 (50 * 3600) 0 = (160, "48-72 hours before departure") := by
  refine ⟨refund_eq_refundSpec, ?_, ?_⟩
  · intro db now pnr actor_id adm reason rcpt h
    unfold cancel_booking at h
    cases hb : findFirst (fun x => x.pnr = pnr) db.bookings with
    | none => rw [hb] at h; simp at h
    | some b =>
      rw [hb] at h
      dsimp only at h
      cases hf : findFlight db b.flight_id with
      | none => rw [hf] at h; simp at h
      | some f =>
        rw [hf] at h
        dsimp only at h
        split_ifs at h
        split at h
        · simp at h
        · rename_i db4 hu
          dsimp only at h
          injection h with h2
          refine ⟨b, f, rfl, hf, ?_, ?_⟩
          · rw [← h2]
            rw [refund_eq_refundSpec]
          · rw [← h2]
            rw [refund_eq_refundSpec]
  · norm_num [calculate_refund, hoursUntil, round2, round_eq]

/-- A database with one CONFIRMED one-passenger booking on a two-seat
flight, used for the cancellation claims. -/
def cancelExampleDB : DB :=
  { flights := [⟨1, 100, 2, 1, 1, 360000, .SCHEDULED⟩],
    bookings := [⟨1, 7, 1, "PNR1", 105, 0, .CONFIRMED, some "PAYREF1", none, none⟩],
    passengers := [⟨1, 1, "1A"⟩],
    payments := [⟨1, "PAYREF1", "CARD", 105, .SUCCESS⟩],
    history := [], archives := [] }

/-- Witness for C5 at a concrete cancellation 100 hours before departure:
refund 105 * 90% = 94.50. -/
theorem c5_refund_policy_witness :
    ∃ b f, findFirst (fun x => x.pnr = "PNR1") cancelExampleDB.bookings = some b ∧
      findFlight cancelExampleDB b.flight_id = some f ∧
      (⟨105, 189/2, "More than 72 hours before departure"⟩ :
          RefundReceipt).refund_amount =
        round2 (b.price_paid * refundPct (hoursUntil f.departure_time 0)) ∧
      (⟨105, 189/2, "More than 72 hours before departure"⟩ :
          RefundReceipt).policy = refundLabel (hoursUntil f.departure_time 0) :=
  c5_refund_policy.2.1 cancelExampleDB 0 "PNR1" 7 false "User requested"
    ⟨105, 189/2, "More than 72 hours before departure"⟩
    (by norm_num [cancel_booking, findFlight, findFirst, calculate_refund,
      round2, round_eq, hoursUntil, countRows, update_flight_inventory,
      adjustedFlight, clampedRemaining, demandTier, historyEntryFor,
      calculate_dynamic_price, cancelExampleDB])

/-! ## Claim C4: cancellation and seat reuse -/

/-- C4 (failing run): cancelling the CONFIRMED booking on seat 1A succeeds,
marks the booking CANCELLED and restores `seats_remaining` to 2, but the
passenger row survives (the source never deletes or archives passenger
rows), so a later checkout for seat 1A on the same flight fails with
`ConflictError` even though two seats are counted as remaining. -/
theorem c4_cancelled_seat_blocks_reuse :
    exceptOk (cancel_booking cancelExampleDB 0 "PNR1" 7 false "User requested").1
        = true ∧
    (∃ b ∈ (cancel_booking cancelExampleDB 0 "PNR1" 7 false
        "User requested").2.bookings, b.id = 1 ∧ b.status = .CANCELLED) ∧
    (findFlight (cancel_booking cancelExampleDB 0 "PNR1" 7 false
        "User requested").2 1).map (fun f => f.seats_remaining) = some 2 ∧
    (cancel_booking cancelExampleDB 0 "PNR1" 7 false "User requested").2.passengers
        = cancelExampleDB.passengers ∧
    (checkout (cancel_booking cancelExampleDB 0 "PNR1" 7 false "User requested").2
        0 ⟨1, 8, [⟨"Bob", "1A"⟩], "CARD"⟩ 2 "PNR2" "PAYREF2" true).1 =
      .error .ConflictError := by
  norm_num [cancel_booking, checkout, prepareCheckout, checkoutValidate,
    findFlight, findFirst, insertPassengers, seatTaken, pendingBooking,
    update_flight_inventory, adjustedFlight, clampedRemaining, demandTier,
    historyEntryFor, calculate_dynamic_price, calculate_refund, round2,
    round_eq, hoursUntil, countRows, confirmBooking, exceptOk, cancelExampleDB]

/-! ## Claim C8: the expiry reaper -/

/-- Some booking row with this id is CANCELLED. -/
def bookingCancelled (db : DB) (i : Nat) : Prop :=
  ∃ b ∈ db.bookings, b.id = i ∧ b.status = .CANCELLED

/-- Some booking row with this id exists. -/
def bookingExists (db : DB) (i : Nat) : Prop := ∃ b ∈ db.bookings, b.id = i

lemma mem_filterRows {A : Type} {p : A → Prop} [DecidablePred p] :
    ∀ {l : List A} {a : A}, a ∈ filterRows p l → a ∈ l := by
  intro l
  induction l with
  | nil => intro a h; simp [filterRows] at h
  | cons x l ih =>
    intro a h
    unfold filterRows at h
    split_ifs at h with hx
    · rcases List.mem_cons.mp h with h1 | h2
      · exact h1 ▸ List.mem_cons_self x l
      · exact List.mem_cons_of_mem x (ih h2)
    · exact List.mem_cons_of_mem x (ih h)

lemma cancelMap_id {j : Nat} (x : Booking) :
    ((if x.id = j then {x with status := BookingStatus.CANCELLED} else x) : Booking).id
      = x.id := by
  split_ifs <;> rfl

lemma sweepOne_ok_bookings {db db2 : DB} {now : ℚ} {b : Booking}
    (h : sweepOne db now b = .ok db2) :
    db2.bookings = db.bookings.map
      (fun x => if x.id = b.id then {x with status := BookingStatus.CANCELLED} else x) := by
  unfold sweepOne at h
  dsimp only at h
  split at h
  · exact absurd h (by simp)
  · rename_i db1 heq
    injection h with h2
    subst h2
    dsimp only
    split_ifs at heq with hc
    · rw [update_inv_bookings heq]
    · injection heq with h3
      rw [← h3]

lemma sweepOne_exists {db db2 : DB} {now : ℚ} {b : Booking} {i : Nat}
    (h : sweepOne db now b = .ok db2) (he : bookingExists db i) :
    bookingExists db2 i := by
  obtain ⟨c, hc, hci⟩ := he
  rw [bookingExists, sweepOne_ok_bookings h]
  exact ⟨_, List.mem_map_of_mem _ hc, by rw [cancelMap_id]; exact hci⟩

lemma sweepOne_preserves_cancelled {db db2 : DB} {now : ℚ} {b : Booking} {i : Nat}
    (h : sweepOne db now b = .ok db2) (he : bookingCancelled db i) :
    bookingCancelled db2 i := by
  obtain ⟨c, hc, hci, hcs⟩ := he
  rw [bookingCancelled, sweepOne_ok_bookings h]
  refine ⟨_, List.mem_map_of_mem _ hc, by rw [cancelMap_id]; exact hci, ?_⟩
  by_cases hcj : c.id = b.id
  · rw [if_pos hcj]
  · rw [if_neg hcj]
    exact hcs

lemma sweepOne_cancels {db db2 : DB} {now : ℚ} {b : Booking}
    (h : sweepOne db now b = .ok db2) (he : bookingExists db b.id) :
    bookingCancelled db2 b.id := by
  obtain ⟨c, hc, hci⟩ := he
  rw [bookingCancelled, sweepOne_ok_bookings h]
  refine ⟨_, List.mem_map_of_mem _ hc, ?_, ?_⟩
  · rw [cancelMap_id]; exact hci
  · rw [if_pos hci]

lemma sweepAll_preserves_cancelled {now : ℚ} {i : Nat} :
    ∀ {l : List Booking} {db db2 : DB}, sweepAll db now l = .ok db2 →
      bookingCancelled db i → bookingCancelled db2 i := by
  intro l
  induction l with
  | nil =>
    intro db db2 h hc
    unfold sweepAll at h
    injection h with h2
    rw [← h2]
    exact hc
  | cons c l ih =>
    intro db db2 h hc
    unfold sweepAll at h
    split at h
    · exact absurd h (by simp)
    · rename_i db1 h1
      exact ih h (sweepOne_preserves_cancelled h1 hc)

lemma sweepAll_cancels {now : ℚ} :
    ∀ {l : List Booking} {db db2 : DB}, sweepAll db now l = .ok db2 →
      (∀ b ∈ l, bookingExists db b.id) →
      ∀ b ∈ l, bookingCancelled db2 b.id := by
  intro l
  induction l with
  | nil => intro db db2 _ _ b hb; simp at hb
  | cons c l ih =>
    intro db db2 h hex b hb
    unfold sweepAll at h
    split at h
    · exact absurd h (by simp)
    · rename_i db1 h1
      rcases List.mem_cons.mp hb with rfl | hbl
      · exact sweepAll_preserves_cancelled h
          (sweepOne_cancels h1 (hex b (List.mem_cons_self _ _)))
      · exact ih h
          (fun d hd => sweepOne_exists h1 (hex d (List.mem_cons_of_mem c hd)))
          b hbl

/-- C8 amended: the reaper's sweep is a single failure unit, not a
per-booking one.  If every per-booking release succeeds, the sweep commits
and every expired booking ends CANCELLED; but if releasing **any** one
booking fails, the whole transaction is rolled back, the error is only
logged, and **no** expired booking of that sweep is cancelled — the others
are not processed independently. -/
theorem c8_sweep_single_failure_unit (db : DB) (now : ℚ) :
    (∀ e, sweepAll db now (expiredBookings db now) = .error e →
        cleanup_expired_bookings db now = db) ∧
    (∀ db2, sweepAll db now (expiredBookings db now) = .ok db2 →
        cleanup_expired_bookings db now = db2 ∧
        ∀ b ∈ expiredBookings db now,
          ∃ b2 ∈ db2.bookings, b2.id = b.id ∧ b2.status = .CANCELLED) := by
  constructor
  · intro e he
    unfold cleanup_expired_bookings
    rw [he]
  · intro db2 h2
    unfold cleanup_expired_bookings
    rw [h2]
    refine ⟨rfl, ?_⟩
    intro b hb
    exact sweepAll_cancels h2
      (fun c hc => ⟨c, mem_filterRows hc, rfl⟩) b hb

/-- A database with two expired PENDING bookings; booking 1 references a
missing flight row (id 99), booking 2 a live flight (id 10). -/
def reaperExampleDB : DB :=
  { flights := [⟨10, 100, 5, 3, 1, 360000, .SCHEDULED⟩],
    bookings := [⟨1, 1, 99, "PNRA", 100, 0, .PENDING, none, none, none⟩,
                 ⟨2, 1, 10, "PNRB", 100, 0, .PENDING, none, none, none⟩],
    passengers := [⟨1, 99, "1A"⟩, ⟨2, 10, "2A"⟩],
    payments := [], history := [], archives := [] }

/-- C8 counterexample: the failure to release booking 1 (missing flight
row) aborts the whole sweep, so the expired booking 2 — which on its own
would be released and cancelled, as the last conjunct shows — stays
PENDING, refuting per-booking failure isolation. -/
theorem c8_counterexample :
    cleanup_expired_bookings reaperExampleDB 100000 = reaperExampleDB ∧
    (∃ b ∈ reaperExampleDB.bookings, b.id = 2 ∧ b.status = .PENDING ∧
        b.booking_date < 100000 - graceWindow) ∧
    exceptOk (sweepOne reaperExampleDB 100000
        ⟨2, 1, 10, "PNRB", 100, 0, .PENDING, none, none, none⟩) = true := by
  norm_num [cleanup_expired_bookings, sweepAll, sweepOne, expiredBookings,
    filterRows, countRows, update_flight_inventory, findFlight, findFirst,
    adjustedFlight, clampedRemaining, demandTier, historyEntryFor,
    calculate_dynamic_price, round2, round_eq, hoursUntil, graceWindow,
    exceptOk, reaperExampleDB]

/-- Witness for C8 amended, on the error side of the same database. -/
theorem c8_sweep_single_failure_unit_witness :
    cleanup_expired_bookings reaperExampleDB 100000 = reaperExampleDB :=
  (c8_sweep_single_failure_unit reaperExampleDB 100000).1 .NotFoundError
    (by norm_num [sweepAll, sweepOne, expiredBookings, filterRows, countRows,
      update_flight_inventory, findFlight, findFirst, graceWindow,
      reaperExampleDB])

end FlightBooking
